import Mathlib

/-!
Shallow embedding of `src/streamlit_app.py` (ATBAD-WEB): a Streamlit
clinical decision-support form.  Patient parameters are collected from a
form, encoded into a fixed-order feature vector, scaled and classified by
two pickled artifacts (`scaler.pkl`, `svm_model.pkl`), and the resulting
probability is thresholded at 0.207 into a High/Low risk band; a rule
table over the raw inputs emits per-field advisories and a fixed
checklist.

The scaler and model artifacts are opaque external objects; they are
modelled as structures carrying their relevant attribute
(`feature_names_in_`) and their callable behaviour (`transform`,
`predict_proba`) as functions that may fail (Python exceptions are
`Except` errors).  Floats are modelled as rationals.  The visible output
of one submission is a trace of output events, one per `st.write` /
`st.error` / rendered block, in emission order.
-/

namespace ATBAD

/-- A Python exception as seen by the handlers in the script: the inner
handler catches `ValueError` specifically, the outer handler catches any
`Exception`. -/
inductive PyErr where
  | valueError (msg : String)
  | otherExn (msg : String)
  deriving DecidableEq, Repr

/-- The message text of an exception (what `f"{e}"` interpolates). -/
def PyErr.msg : PyErr → String
  | .valueError m => m
  | .otherExn m => m

/-- The fitted scaler artifact (`scaler.pkl`), as the script uses it:
its optional `feature_names_in_` attribute (read via `getattr(...,
None)`) and its `transform` method, which receives the DataFrame
(column names and one row of cells, a cell being `none` for NaN) and
either returns the scaled row or raises. -/
structure Scaler where
  featureNamesIn : Option (List String)
  transform : List String → List (Option ℚ) → Except PyErr (List ℚ)

/-- The fitted classifier artifact (`svm_model.pkl`), as the script uses
it: `predict_proba(...)[:, 1][0]`, the positive-class probability for
the single row, which may raise. -/
structure SvmModel where
  predictProba : List ℚ → Except PyErr ℚ

/-- One submitted tuple of the seven form fields.  The two selectboxes
for comorbidities yield the strings "No"/"Yes". -/
structure PatientInput where
  age : ℤ
  hr : ℤ
  hgb : ℤ
  hospitalization : ℤ
  bun : ℚ
  coronary : String
  renal : String
  deriving DecidableEq, Repr

/-- `coronary_binary = 1 if coronary == "Yes" else 0`. -/
def coronaryBinary (s : String) : ℤ := if s = "Yes" then 1 else 0

/-- `renal_binary = 1 if renal == "Yes" else 0`. -/
def renalBinary (s : String) : ℤ := if s = "Yes" then 1 else 0

/-- `normal_ranges["HR"] = (60, 100)`. -/
def normal_HR : ℤ × ℤ := (60, 100)

/-- `normal_ranges["BUN"] = (2.9, 8.2)`. -/
def normal_BUN : ℚ × ℚ := (2.9, 8.2)

/-- `normal_ranges["HGB"] = (120, 160)`. -/
def normal_HGB : ℤ × ℤ := (120, 160)

/-- The `data` dict literal built in the submission handler: pairs of
column name and numeric value, in the dict's insertion order. -/
def PatientInput.dataDict (p : PatientInput) : List (String × ℚ) :=
  [("age", (p.age : ℚ)),
   ("HR", (p.hr : ℚ)),
   ("HGB", (p.hgb : ℚ)),
   ("hospitalization", (p.hospitalization : ℚ)),
   ("BUN", p.bun),
   ("coronary heart disease", (coronaryBinary p.coronary : ℚ)),
   ("renal dysfunction", (renalBinary p.renal : ℚ))]

/-- `feature_order`: the column order passed to
`pd.DataFrame([data], columns=feature_order)` ("the exact order used
during fit"). -/
def feature_order : List String :=
  ["age", "HR", "HGB", "hospitalization", "BUN",
   "coronary heart disease", "renal dysfunction"]

/-- The single row of `data_df`: for each name in `feature_order`, the
value bound to it in `data` — pandas reindexes by name, so a column name
missing from the dict would give a NaN cell (`none`). -/
def encodeRow (p : PatientInput) : List (Option ℚ) :=
  feature_order.map (fun c => p.dataDict.lookup c)

/-- Risk band rendered for a probability. -/
inductive RiskBand where
  | High
  | Low
  deriving DecidableEq, Repr

/-- `if prediction >= 0.207: High risk else: Low risk`. -/
def riskBand (prob : ℚ) : RiskBand :=
  if prob ≥ 0.207 then .High else .Low

/-- The value shown by `{prediction * 100:.2f}` — the probability as a
percentage rounded to two decimal places. -/
def pctDisplay (prob : ℚ) : ℚ :=
  (round (prob * 100 * 100) : ℤ) / 100

/-- The per-field advisory messages of the recommendation block. -/
inductive Advisory where
  | hrBelow | hrWithin | hrAbove
  | bunBelow | bunWithin | bunAbove
  | hgbBelow | hgbWithin | hgbAbove
  | coronaryPresent
  | renalPresent
  | extendedStay
  deriving DecidableEq, Repr

/-- Heart-rate advisory chain:
`if hr < 60: below elif hr > 100: above else: within`. -/
def hrAdvisory (hr : ℤ) : Advisory :=
  if hr < normal_HR.1 then .hrBelow
  else if hr > normal_HR.2 then .hrAbove
  else .hrWithin

/-- BUN advisory chain:
`if bun < 2.9: below elif bun > 8.2: above else: within`. -/
def bunAdvisory (bun : ℚ) : Advisory :=
  if bun < normal_BUN.1 then .bunBelow
  else if bun > normal_BUN.2 then .bunAbove
  else .bunWithin

/-- Hemoglobin advisory chain:
`if hgb < 120: below elif hgb > 160: above else: within`. -/
def hgbAdvisory (hgb : ℤ) : Advisory :=
  if hgb < normal_HGB.1 then .hgbBelow
  else if hgb > normal_HGB.2 then .hgbAbove
  else .hgbWithin

/-- The advisory messages of one submission, in the order the script
renders them: HR, BUN, HGB, then the three conditional advisories. -/
def recommendations (p : PatientInput) : List Advisory :=
  [hrAdvisory p.hr, bunAdvisory p.bun, hgbAdvisory p.hgb]
    ++ (if coronaryBinary p.coronary = 1 then [Advisory.coronaryPresent] else [])
    ++ (if renalBinary p.renal = 1 then [Advisory.renalPresent] else [])
    ++ (if p.hospitalization > 14 then [Advisory.extendedStay] else [])

/-- One visible output of the submission handler, in emission order:
the schema debug `st.write`s, the four `st.error` forms, the rendered
risk box, one advisory line, and the general-management checklist. -/
inductive OutEvent where
  | writeSchema (expected : Option (List String)) (actual : List String)
  | errScalerValueError (msg : String)
  | errExpectedSchema (expected : Option (List String))
  | errProvidedSchema (actual : List String)
  | errUnexpected (msg : String)
  | riskResult (prob : ℚ) (band : RiskBand)
  | advisory (a : Advisory)
  | checklist
  deriving DecidableEq, Repr

/-- Whether an event is one of the `st.error` calls. -/
def OutEvent.isError : OutEvent → Bool
  | .errScalerValueError _ => true
  | .errExpectedSchema _ => true
  | .errProvidedSchema _ => true
  | .errUnexpected _ => true
  | _ => false

/-- Whether an event is an advisory line of the recommendation block. -/
def OutEvent.isAdvisory : OutEvent → Bool
  | .advisory _ => true
  | _ => false

/-- The visible output of one submission (`if submit_button:` body).
Everything from the DataFrame construction onward runs inside the outer
`try`; `scaler.transform` additionally has its own `try/except
ValueError` whose handler prints three errors and calls `st.stop()`;
any other exception from scaling or prediction reaches the outer
`except Exception` handler.  On success the risk box, the advisory
lines and the checklist are rendered, in that order, after the schema
debug output. -/
def handleSubmission (scaler : Scaler) (model : SvmModel) (p : PatientInput) :
    List OutEvent :=
  OutEvent.writeSchema scaler.featureNamesIn feature_order ::
    match scaler.transform feature_order (encodeRow p) with
    | .error (.valueError m) =>
        [OutEvent.errScalerValueError m,
         OutEvent.errExpectedSchema scaler.featureNamesIn,
         OutEvent.errProvidedSchema feature_order]
    | .error (.otherExn m) => [OutEvent.errUnexpected m]
    | .ok scaled =>
        match model.predictProba scaled with
        | .error e => [OutEvent.errUnexpected e.msg]
        | .ok prob =>
            OutEvent.riskResult prob (riskBand prob) ::
              ((recommendations p).map OutEvent.advisory ++ [OutEvent.checklist])

/-- The inference result of one submission: the positive-class
probability and its risk band, or `none` when scaling or prediction
raised. -/
def pipelineResult (scaler : Scaler) (model : SvmModel) (p : PatientInput) :
    Option (ℚ × RiskBand) :=
  match scaler.transform feature_order (encodeRow p) with
  | .error _ => none
  | .ok scaled =>
      match model.predictProba scaled with
      | .error _ => none
      | .ok prob => some (prob, riskBand prob)

/-- The environment the module-level artifact loading sees: whether each
pickle file exists, and whether its bytes deserialize. -/
structure FileSystem where
  modelPresent : Bool
  scalerPresent : Bool
  modelBytesOk : Bool
  scalerBytesOk : Bool
  deriving DecidableEq, Repr

/-- Outcome of the module-level load block. -/
inductive LoadOutcome where
  | loaded (scaler : Scaler) (model : SvmModel)
  | stoppedWithError (msg : String)
  | crashed

/-- The module-level artifact loading: both files are opened first (one
`with` statement), so a missing file raises `FileNotFoundError`, which
is the only exception the `except` clause catches (`st.error` then
`st.stop()`).  A file that exists but fails to unpickle raises an
exception the block does not catch, which propagates out of the
script. -/
def loadArtifacts (fs : FileSystem) (scaler : Scaler) (model : SvmModel) :
    LoadOutcome :=
  if fs.modelPresent && fs.scalerPresent then
    if fs.modelBytesOk && fs.scalerBytesOk then .loaded scaler model
    else .crashed
  else .stoppedWithError "Model or scaler file not found"

/-- Whether the load block itself reported an error via `st.error`. -/
def LoadOutcome.errorShown : LoadOutcome → Bool
  | .stoppedWithError _ => true
  | _ => false

/-- Whether loading succeeded, i.e. the prediction UI is served. -/
def LoadOutcome.isLoaded : LoadOutcome → Bool
  | .loaded _ _ => true
  | _ => false

/-- Modelled from the spec: the fitted schema of the scaler artifact.
`scaler.pkl` is not part of the source tree, so the feature names it
was fitted with are not directly inspectable; the spec fixes the
artifacts' schema as "the feature names/order they were fitted with"
and the script pins `feature_order` as "the exact order used during
fit", with the comment "matches model's feature name" on
`renal dysfunction`. -/
def fittedSchema : List String :=
  ["age", "HR", "HGB", "hospitalization", "BUN",
   "coronary heart disease", "renal dysfunction"]

/-! ### Concrete fixtures

Concrete artifact behaviours and a concrete submission, used to
instantiate the theorems below. -/

/-- A scaler whose `transform` succeeds (returns the row's cells, NaN
as 0) and whose recorded feature names agree with `feature_order`. -/
def okScaler : Scaler :=
  { featureNamesIn := some feature_order,
    transform := fun _ row => .ok (row.map (fun c => c.getD 0)) }

/-- A second well-behaved scaler with a different `transform`. -/
def okScaler2 : Scaler :=
  { featureNamesIn := some feature_order,
    transform := fun _ row => .ok (row.map (fun c => c.getD 0 + 1)) }

/-- A model whose `predict_proba` returns probability 1. -/
def okModel : SvmModel := { predictProba := fun _ => .ok 1 }

/-- A second model, returning probability 0. -/
def okModel2 : SvmModel := { predictProba := fun _ => .ok 0 }

/-- A scaler whose `transform` raises `ValueError`, as sklearn does on a
feature-name/shape mismatch. -/
def veScaler : Scaler :=
  { featureNamesIn := some feature_order,
    transform := fun _ _ => .error (.valueError "Feature names mismatch") }

/-- A scaler whose recorded feature names disagree with
`feature_order`. -/
def mismatchNamesScaler : Scaler :=
  { featureNamesIn := some ["totally", "different"],
    transform := fun _ _ => .error (.valueError "Feature names mismatch") }

/-- A model whose `predict_proba` raises a non-`ValueError` exception. -/
def exnModel : SvmModel := { predictProba := fun _ => .error (.otherExn "boom") }

/-- A concrete submitted tuple, with every vital in its normal band. -/
def p0 : PatientInput := ⟨51, 70, 130, 10, 4, "No", "No"⟩

/-- An all-good load environment: both pickle files exist and
deserialize. -/
def allOkFS : FileSystem := ⟨true, true, true, true⟩

/-- An environment where the model pickle file is missing. -/
def missingModelFS : FileSystem := ⟨false, true, true, true⟩

/-- An environment where both files exist but the scaler's bytes fail
to unpickle. -/
def corruptScalerFS : FileSystem := ⟨true, true, true, false⟩

/-! ### Classifying advisories -/

/-- Whether an advisory is one of the three heart-rate messages. -/
def Advisory.isHR : Advisory → Bool
  | .hrBelow | .hrWithin | .hrAbove => true
  | _ => false

/-- Whether an advisory is one of the three BUN messages. -/
def Advisory.isBUN : Advisory → Bool
  | .bunBelow | .bunWithin | .bunAbove => true
  | _ => false

/-- Whether an advisory is one of the three hemoglobin messages. -/
def Advisory.isHGB : Advisory → Bool
  | .hgbBelow | .hgbWithin | .hgbAbove => true
  | _ => false

lemma hrAdvisory_isHR (h : ℤ) : (hrAdvisory h).isHR = true := by
  unfold hrAdvisory; split_ifs <;> rfl

lemma bunAdvisory_isHR (b : ℚ) : (bunAdvisory b).isHR = false := by
  unfold bunAdvisory; split_ifs <;> rfl

lemma hgbAdvisory_isHR (g : ℤ) : (hgbAdvisory g).isHR = false := by
  unfold hgbAdvisory; split_ifs <;> rfl

lemma hrAdvisory_isBUN (h : ℤ) : (hrAdvisory h).isBUN = false := by
  unfold hrAdvisory; split_ifs <;> rfl

lemma bunAdvisory_isBUN (b : ℚ) : (bunAdvisory b).isBUN = true := by
  unfold bunAdvisory; split_ifs <;> rfl

lemma hgbAdvisory_isBUN (g : ℤ) : (hgbAdvisory g).isBUN = false := by
  unfold hgbAdvisory; split_ifs <;> rfl

lemma hrAdvisory_isHGB (h : ℤ) : (hrAdvisory h).isHGB = false := by
  unfold hrAdvisory; split_ifs <;> rfl

lemma bunAdvisory_isHGB (b : ℚ) : (bunAdvisory b).isHGB = false := by
  unfold bunAdvisory; split_ifs <;> rfl

lemma hgbAdvisory_isHGB (g : ℤ) : (hgbAdvisory g).isHGB = true := by
  unfold hgbAdvisory; split_ifs <;> rfl

lemma condFlags_not_vital :
    Advisory.isHR .coronaryPresent = false ∧ Advisory.isHR .renalPresent = false ∧
    Advisory.isHR .extendedStay = false ∧
    Advisory.isBUN .coronaryPresent = false ∧ Advisory.isBUN .renalPresent = false ∧
    Advisory.isBUN .extendedStay = false ∧
    Advisory.isHGB .coronaryPresent = false ∧ Advisory.isHGB .renalPresent = false ∧
    Advisory.isHGB .extendedStay = false := by
  decide

lemma vital_ne_flags (h g : ℤ) (b : ℚ) :
    Advisory.coronaryPresent ≠ hrAdvisory h ∧ Advisory.coronaryPresent ≠ bunAdvisory b ∧
    Advisory.coronaryPresent ≠ hgbAdvisory g ∧
    Advisory.renalPresent ≠ hrAdvisory h ∧ Advisory.renalPresent ≠ bunAdvisory b ∧
    Advisory.renalPresent ≠ hgbAdvisory g ∧
    Advisory.extendedStay ≠ hrAdvisory h ∧ Advisory.extendedStay ≠ bunAdvisory b ∧
    Advisory.extendedStay ≠ hgbAdvisory g := by
  unfold hrAdvisory bunAdvisory hgbAdvisory
  split_ifs <;> simp

/-! ### Theorems -/

/-- C2: the risk presenter is a pure function of the probability:
`p ≥ 0.207` renders the High band and `p < 0.207` the Low band (so
0.207 is High, 0.2069999 is Low, 1.0 is High, 0.0 is Low), and the
probability is rendered as a percentage on the two-decimal grid, within
half of the last displayed digit of the exact value. -/
theorem c2_risk_presenter_threshold (p : ℚ) :
    (riskBand p = .High ↔ p ≥ 0.207) ∧
    (riskBand p = .Low ↔ p < 0.207) ∧
    riskBand 0.207 = .High ∧ riskBand 0.2069999 = .Low ∧
    riskBand 1 = .High ∧ riskBand 0 = .Low ∧
    ∃ n : ℤ, pctDisplay p = (n : ℚ) / 100 ∧ |pctDisplay p - p * 100| ≤ 1 / 200 := by
  refine ⟨?_, ?_, by norm_num [riskBand], by norm_num [riskBand],
          by norm_num [riskBand], by norm_num [riskBand], ?_⟩
  · unfold riskBand
    split_ifs with h <;> simp [h]
  · unfold riskBand
    split_ifs with h <;> simp [h, not_le.mp]
  · refine ⟨round (p * 100 * 100), rfl, ?_⟩
    have hb := abs_sub_round (p * 100 * 100)
    have he : pctDisplay p - p * 100 =
        (((round (p * 100 * 100) : ℤ) : ℚ) - p * 100 * 100) / 100 := by
      unfold pctDisplay; ring
    rw [he, abs_div, abs_of_pos (by norm_num : (0 : ℚ) < 100), abs_sub_comm]
    linarith

/-- C6: for every PatientInput, the feature encoder produces a row of
exactly seven defined numeric cells in the fixed column order
[age, HR, HGB, hospitalization, BUN, coronary heart disease,
renal dysfunction], and this order equals the scaler's fitted schema
(as modelled from the spec, the artifact being outside the source
tree). -/
theorem c6_feature_encoder_schema (p : PatientInput) :
    encodeRow p =
      [some (p.age : ℚ), some (p.hr : ℚ), some (p.hgb : ℚ),
       some (p.hospitalization : ℚ), some p.bun,
       some (coronaryBinary p.coronary : ℚ), some (renalBinary p.renal : ℚ)] ∧
    (encodeRow p).length = 7 ∧
    feature_order =
      ["age", "HR", "HGB", "hospitalization", "BUN",
       "coronary heart disease", "renal dysfunction"] ∧
    feature_order = fittedSchema ∧
    feature_order.length = 7 :=
  ⟨rfl, rfl, rfl, rfl, rfl⟩

/-- C9: for a fixed artifact pair and a fixed input, two invocations of
the prediction pipeline compute the identical probability/risk-band
result and the identical output trace: the pipeline is a deterministic
function with no hidden randomness. -/
theorem c9_pipeline_deterministic (s : Scaler) (m : SvmModel) (p : PatientInput)
    (r₁ r₂ : Option (ℚ × RiskBand)) (t₁ t₂ : List OutEvent)
    (h₁ : pipelineResult s m p = r₁) (h₂ : pipelineResult s m p = r₂)
    (g₁ : handleSubmission s m p = t₁) (g₂ : handleSubmission s m p = t₂) :
    r₁ = r₂ ∧ t₁ = t₂ := by
  subst h₁; subst g₁
  exact ⟨h₂, g₂⟩

/-- Witness for C9 at the concrete fixtures: two invocations on `p0`
with `okScaler`/`okModel` agree. -/
theorem c9_pipeline_deterministic_witness :
    pipelineResult okScaler okModel p0 = pipelineResult okScaler okModel p0 ∧
    handleSubmission okScaler okModel p0 = handleSubmission okScaler okModel p0 :=
  c9_pipeline_deterministic okScaler okModel p0 _ _ _ _ rfl rfl rfl rfl

/-- C10: on every submission, the first visible output — before scaling
is attempted, and in particular also when the submission succeeds — is
the debug display of the scaler's `feature_names_in_` (or `None` when
absent) next to the actual DataFrame columns. -/
theorem c10_schema_debug_always_shown (s : Scaler) (m : SvmModel) (p : PatientInput) :
    ∃ rest, handleSubmission s m p =
      OutEvent.writeSchema s.featureNamesIn feature_order :: rest :=
  ⟨_, rfl⟩

/-- C7: every submission's advisory list contains exactly one heart-rate
advisory, exactly one BUN advisory and exactly one hemoglobin advisory;
each is below / within / above its band, boundary-inclusive on both
ends (HR 60–100, BUN 2.9–8.2, HGB 120–160), and at the boundaries
HR 59 is below, 60 and 100 within, 101 above. -/
theorem c7_vital_advisory_bands (p : PatientInput) :
    (recommendations p).filter Advisory.isHR = [hrAdvisory p.hr] ∧
    (recommendations p).filter Advisory.isBUN = [bunAdvisory p.bun] ∧
    (recommendations p).filter Advisory.isHGB = [hgbAdvisory p.hgb] ∧
    (hrAdvisory p.hr = .hrBelow ↔ p.hr < 60) ∧
    (hrAdvisory p.hr = .hrWithin ↔ 60 ≤ p.hr ∧ p.hr ≤ 100) ∧
    (hrAdvisory p.hr = .hrAbove ↔ 100 < p.hr) ∧
    (bunAdvisory p.bun = .bunBelow ↔ p.bun < 2.9) ∧
    (bunAdvisory p.bun = .bunWithin ↔ 2.9 ≤ p.bun ∧ p.bun ≤ 8.2) ∧
    (bunAdvisory p.bun = .bunAbove ↔ 8.2 < p.bun) ∧
    (hgbAdvisory p.hgb = .hgbBelow ↔ p.hgb < 120) ∧
    (hgbAdvisory p.hgb = .hgbWithin ↔ 120 ≤ p.hgb ∧ p.hgb ≤ 160) ∧
    (hgbAdvisory p.hgb = .hgbAbove ↔ 160 < p.hgb) ∧
    hrAdvisory 59 = .hrBelow ∧ hrAdvisory 60 = .hrWithin ∧
    hrAdvisory 100 = .hrWithin ∧ hrAdvisory 101 = .hrAbove ∧
    bunAdvisory 2.9 = .bunWithin ∧ bunAdvisory 8.2 = .bunWithin ∧
    hgbAdvisory 120 = .hgbWithin ∧ hgbAdvisory 160 = .hgbWithin := by
  refine ⟨?_, ?_, ?_, ?_, ?_, ?_, ?_, ?_, ?_, ?_, ?_, ?_,
          by decide, by decide, by decide, by decide,
          by norm_num [bunAdvisory, normal_BUN], by norm_num [bunAdvisory, normal_BUN],
          by decide, by decide⟩
  · unfold recommendations
    split_ifs <;>
      simp [List.filter_cons, List.filter_append, condFlags_not_vital,
            hrAdvisory_isHR, bunAdvisory_isHR, hgbAdvisory_isHR]
  · unfold recommendations
    split_ifs <;>
      simp [List.filter_cons, List.filter_append, condFlags_not_vital,
            hrAdvisory_isBUN, bunAdvisory_isBUN, hgbAdvisory_isBUN]
  · unfold recommendations
    split_ifs <;>
      simp [List.filter_cons, List.filter_append, condFlags_not_vital,
            hrAdvisory_isHGB, bunAdvisory_isHGB, hgbAdvisory_isHGB]
  · unfold hrAdvisory normal_HR; split_ifs <;> simp_all <;> omega
  · unfold hrAdvisory normal_HR; split_ifs <;> simp_all <;> omega
  · unfold hrAdvisory normal_HR; split_ifs <;> simp_all <;> omega
  · unfold bunAdvisory normal_BUN; split_ifs <;> simp_all <;> linarith
  · unfold bunAdvisory normal_BUN; split_ifs <;> simp_all <;> linarith
  · unfold bunAdvisory normal_BUN; split_ifs <;> simp_all <;> linarith
  · unfold hgbAdvisory normal_HGB; split_ifs <;> simp_all <;> omega
  · unfold hgbAdvisory normal_HGB; split_ifs <;> simp_all <;> omega
  · unfold hgbAdvisory normal_HGB; split_ifs <;> simp_all <;> omega

/-- C8: each conditional advisory appears in the advisory list iff its
trigger holds, regardless of the other fields — the coronary advisory
iff the coronary selectbox is "Yes", the renal advisory iff the renal
selectbox is "Yes", the extended-stay advisory iff hospitalization
days exceed 14 — and concretely 14 days yields no extended-stay
advisory while 15 does. -/
theorem c8_conditional_advisories (p : PatientInput) :
    (Advisory.coronaryPresent ∈ recommendations p ↔ p.coronary = "Yes") ∧
    (Advisory.renalPresent ∈ recommendations p ↔ p.renal = "Yes") ∧
    (Advisory.extendedStay ∈ recommendations p ↔ p.hospitalization > 14) ∧
    Advisory.extendedStay ∉ recommendations ⟨61, 70, 130, 14, 5, "No", "No"⟩ ∧
    Advisory.extendedStay ∈ recommendations ⟨61, 70, 130, 15, 5, "No", "No"⟩ := by
  have hb : bunAdvisory (5 : ℚ) = .bunWithin := by norm_num [bunAdvisory, normal_BUN]
  refine ⟨?_, ?_, ?_, ?_, ?_⟩
  · by_cases hc : p.coronary = "Yes" <;> by_cases hrn : p.renal = "Yes" <;>
      by_cases hh : p.hospitalization > 14 <;>
        simp [recommendations, coronaryBinary, renalBinary, hc, hrn, hh,
              vital_ne_flags p.hr p.hgb p.bun]
  · by_cases hc : p.coronary = "Yes" <;> by_cases hrn : p.renal = "Yes" <;>
      by_cases hh : p.hospitalization > 14 <;>
        simp [recommendations, coronaryBinary, renalBinary, hc, hrn, hh,
              vital_ne_flags p.hr p.hgb p.bun]
  · by_cases hc : p.coronary = "Yes" <;> by_cases hrn : p.renal = "Yes" <;>
      by_cases hh : p.hospitalization > 14 <;>
        simp [recommendations, coronaryBinary, renalBinary, hc, hrn, hh,
              vital_ne_flags p.hr p.hgb p.bun]
  · norm_num [recommendations, hb, hrAdvisory, hgbAdvisory, normal_HR, normal_HGB,
              coronaryBinary, renalBinary] <;> decide
  · norm_num [recommendations, hb, hrAdvisory, hgbAdvisory, normal_HR, normal_HGB,
              coronaryBinary, renalBinary] <;> decide

/-- C1 (counterexample): startup performs no schema validation.  With
both artifact files loading fine, a scaler whose recorded feature names
disagree with the encoder's declared column order is loaded without any
visible error: the load outcome is `loaded` and no error is shown, so
the program does not fail fast on the mismatch at artifact load time. -/
theorem c1_startup_validation_counterexample :
    loadArtifacts allOkFS mismatchNamesScaler okModel =
      .loaded mismatchNamesScaler okModel ∧
    mismatchNamesScaler.featureNamesIn ≠ some feature_order ∧
    (loadArtifacts allOkFS mismatchNamesScaler okModel).errorShown = false :=
  ⟨rfl, by decide, rfl⟩

/-- C1 (amended): the program performs no schema validation at startup —
loading succeeds for any recorded feature names whenever both files
deserialize — and the schema comparison is surfaced only per
submission: the expected and actual names are displayed before scaling,
and a `ValueError` raised by `transform` is reported inline with both
schemas, after which the submission stops without producing any
prediction. -/
theorem c1_schema_surfaced_per_submission (fs : FileSystem) (s : Scaler)
    (m : SvmModel) (p : PatientInput) (msg : String)
    (hok : fs.modelPresent = true ∧ fs.scalerPresent = true ∧
           fs.modelBytesOk = true ∧ fs.scalerBytesOk = true)
    (hve : s.transform feature_order (encodeRow p) = .error (.valueError msg)) :
    loadArtifacts fs s m = .loaded s m ∧
    handleSubmission s m p =
      [OutEvent.writeSchema s.featureNamesIn feature_order,
       OutEvent.errScalerValueError msg,
       OutEvent.errExpectedSchema s.featureNamesIn,
       OutEvent.errProvidedSchema feature_order] ∧
    pipelineResult s m p = none := by
  obtain ⟨h1, h2, h3, h4⟩ := hok
  refine ⟨?_, ?_, ?_⟩
  · simp [loadArtifacts, h1, h2, h3, h4]
  · simp [handleSubmission, hve]
  · simp [pipelineResult, hve]

/-- Witness for the amended C1 at the concrete fixtures. -/
theorem c1_schema_surfaced_per_submission_witness :
    (allOkFS.modelPresent = true ∧ allOkFS.scalerPresent = true ∧
     allOkFS.modelBytesOk = true ∧ allOkFS.scalerBytesOk = true) ∧
    veScaler.transform feature_order (encodeRow p0) =
      .error (.valueError "Feature names mismatch") ∧
    (loadArtifacts allOkFS veScaler okModel = .loaded veScaler okModel ∧
     handleSubmission veScaler okModel p0 =
       [OutEvent.writeSchema veScaler.featureNamesIn feature_order,
        OutEvent.errScalerValueError "Feature names mismatch",
        OutEvent.errExpectedSchema veScaler.featureNamesIn,
        OutEvent.errProvidedSchema feature_order] ∧
     pipelineResult veScaler okModel p0 = none) :=
  ⟨⟨rfl, rfl, rfl, rfl⟩, rfl,
   c1_schema_surfaced_per_submission allOkFS veScaler okModel p0
     "Feature names mismatch" ⟨rfl, rfl, rfl, rfl⟩ rfl⟩

/-- C3 (counterexample): the recommendation block is rendered inside the
inference `try`, downstream of scaling: on a submission where
`scaler.transform` raises `ValueError`, the script stops and neither
any per-field advisory nor the general checklist is produced. -/
theorem c3_recommendations_skipped_counterexample :
    handleSubmission veScaler okModel p0 =
      [OutEvent.writeSchema (some feature_order) feature_order,
       OutEvent.errScalerValueError "Feature names mismatch",
       OutEvent.errExpectedSchema (some feature_order),
       OutEvent.errProvidedSchema feature_order] ∧
    (handleSubmission veScaler okModel p0).any OutEvent.isAdvisory = false ∧
    OutEvent.checklist ∉ handleSubmission veScaler okModel p0 :=
  ⟨rfl, rfl, by decide⟩

lemma filter_isAdvisory_map (l : List Advisory) :
    (l.map OutEvent.advisory).filter OutEvent.isAdvisory = l.map OutEvent.advisory := by
  induction l with
  | nil => rfl
  | cons a t ih => simp [List.filter, OutEvent.isAdvisory, ih]

lemma success_trace (s : Scaler) (m : SvmModel) (p : PatientInput)
    (h : pipelineResult s m p ≠ none) :
    (handleSubmission s m p).filter OutEvent.isAdvisory =
      (recommendations p).map OutEvent.advisory ∧
    OutEvent.checklist ∈ handleSubmission s m p := by
  unfold pipelineResult at h
  unfold handleSubmission
  rcases htr : s.transform feature_order (encodeRow p) with e | scaled
  · simp_all
  · rcases hpr : m.predictProba scaled with e | prob
    · simp_all
    · simp_all [List.filter_cons, List.filter_append, OutEvent.isAdvisory,
                filter_isAdvisory_map]

/-- C3 (amended): the advisory content is a pure function of the raw
submitted input — whenever scaling and prediction succeed, the emitted
advisory lines equal `recommendations p` for any artifact pair, so they
are independent of the inference path — but they are only emitted on
inference success (see the counterexample for the failure case), the
checklist included. -/
theorem c3_recommendations_depend_only_on_input (s₁ s₂ : Scaler)
    (m₁ m₂ : SvmModel) (p : PatientInput)
    (h₁ : pipelineResult s₁ m₁ p ≠ none) (h₂ : pipelineResult s₂ m₂ p ≠ none) :
    (handleSubmission s₁ m₁ p).filter OutEvent.isAdvisory =
      (recommendations p).map OutEvent.advisory ∧
    (handleSubmission s₂ m₂ p).filter OutEvent.isAdvisory =
      (handleSubmission s₁ m₁ p).filter OutEvent.isAdvisory ∧
    OutEvent.checklist ∈ handleSubmission s₁ m₁ p := by
  obtain ⟨e₁, c₁⟩ := success_trace s₁ m₁ p h₁
  obtain ⟨e₂, _⟩ := success_trace s₂ m₂ p h₂
  exact ⟨e₁, by rw [e₁, e₂], c₁⟩

/-- Witness for the amended C3: two different succeeding artifact pairs
yield the same advisories on `p0`. -/
theorem c3_recommendations_depend_only_on_input_witness :
    pipelineResult okScaler okModel p0 ≠ none ∧
    pipelineResult okScaler2 okModel2 p0 ≠ none ∧
    ((handleSubmission okScaler okModel p0).filter OutEvent.isAdvisory =
       (recommendations p0).map OutEvent.advisory ∧
     (handleSubmission okScaler2 okModel2 p0).filter OutEvent.isAdvisory =
       (handleSubmission okScaler okModel p0).filter OutEvent.isAdvisory ∧
     OutEvent.checklist ∈ handleSubmission okScaler okModel p0) :=
  ⟨by simp [pipelineResult, okScaler, okModel],
   by simp [pipelineResult, okScaler2, okModel2],
   c3_recommendations_depend_only_on_input okScaler okScaler2 okModel okModel2 p0
     (by simp [pipelineResult, okScaler, okModel])
     (by simp [pipelineResult, okScaler2, okModel2])⟩

/-- C4 (counterexample): a file that exists but fails to deserialize is
not covered by the `except FileNotFoundError` clause: the exception
propagates uncaught (the script crashes rather than reporting through
its own `st.error`/`st.stop` path), so the program does not "fail with
a fatal, user-visible error" of its own in that case — though no
prediction UI is served either. -/
theorem c4_corrupt_artifact_counterexample :
    loadArtifacts corruptScalerFS okScaler okModel = .crashed ∧
    (loadArtifacts corruptScalerFS okScaler okModel).errorShown = false ∧
    (loadArtifacts corruptScalerFS okScaler okModel).isLoaded = false :=
  ⟨rfl, rfl, rfl⟩

/-- C4 (amended): if either artifact file is missing, the program shows
a visible error and halts (`st.error` + `st.stop`); if both exist but
either fails to deserialize, the exception propagates uncaught.  In
every failure case no prediction UI is served. -/
theorem c4_startup_failure_modes (fs : FileSystem) (s : Scaler) (m : SvmModel)
    (h : fs.modelPresent = false ∨ fs.scalerPresent = false ∨
         fs.modelBytesOk = false ∨ fs.scalerBytesOk = false) :
    (loadArtifacts fs s m).isLoaded = false ∧
    loadArtifacts fs s m =
      (if fs.modelPresent && fs.scalerPresent then .crashed
       else .stoppedWithError "Model or scaler file not found") := by
  obtain ⟨mp, sp, mb, sb⟩ := fs
  cases mp <;> cases sp <;> cases mb <;> cases sb <;>
    simp_all [loadArtifacts, LoadOutcome.isLoaded]

/-- Witness for the amended C4 at a missing model file. -/
theorem c4_startup_failure_modes_witness :
    (missingModelFS.modelPresent = false ∨ missingModelFS.scalerPresent = false ∨
     missingModelFS.modelBytesOk = false ∨ missingModelFS.scalerBytesOk = false) ∧
    ((loadArtifacts missingModelFS okScaler okModel).isLoaded = false ∧
     loadArtifacts missingModelFS okScaler okModel =
       (if missingModelFS.modelPresent && missingModelFS.scalerPresent then .crashed
        else .stoppedWithError "Model or scaler file not found")) :=
  ⟨Or.inl rfl, c4_startup_failure_modes missingModelFS okScaler okModel (Or.inl rfl)⟩

/-- C5: on every submission on which scaling or inference raises — any
exception from `transform` or `predict_proba`, i.e. the pipeline yields
no result — the rendered page contains an inline error message together
with both the expected schema (the scaler's fitted feature names) and
the actual schema (the provided columns, shown by the unconditional
schema display); the handler always returns a complete output trace
(every exception is caught), so the session survives and a corrected
resubmission remains possible. -/
theorem c5_submission_errors_reported (s : Scaler) (m : SvmModel)
    (p : PatientInput) (ns : List String)
    (hns : s.featureNamesIn = some ns)
    (hfail : pipelineResult s m p = none) :
    OutEvent.writeSchema (some ns) feature_order ∈ handleSubmission s m p ∧
    (handleSubmission s m p).any OutEvent.isError = true := by
  unfold pipelineResult at hfail
  unfold handleSubmission
  rw [hns]
  rcases htr : s.transform feature_order (encodeRow p) with e | scaled
  · rcases e with msg | msg <;> simp_all [OutEvent.isError]
  · rcases hpr : m.predictProba scaled with e | prob <;> simp_all [OutEvent.isError]

/-- Witness for C5: a `ValueError` from scaling on `p0` is reported with
both schemas present in the output. -/
theorem c5_submission_errors_reported_witness :
    veScaler.featureNamesIn = some feature_order ∧
    pipelineResult veScaler okModel p0 = none ∧
    (OutEvent.writeSchema (some feature_order) feature_order ∈
       handleSubmission veScaler okModel p0 ∧
     (handleSubmission veScaler okModel p0).any OutEvent.isError = true) :=
  ⟨rfl, rfl, c5_submission_errors_reported veScaler okModel p0 feature_order rfl rfl⟩

end ATBAD

